import Mathlib

set_option maxRecDepth 4000

/- Shallow embedding of the detection core of the mevshield repository
   (venn-boilerplate/src/detectors/*.ts): the Phishing, Approval, MEV,
   Two-Factor-Auth and Multisig-Protection rule evaluators.

   Modelling conventions:
   - JavaScript Maps become insertion-ordered association lists
     (set updates in place, inserts at the end; entries() preserves order).
   - BigInt and number quantities become Nat (Int where JS subtraction can
     go negative).
   - The JS floating-point slippage value becomes an exact rational.
   - The asynchronous chain-data gateway (ethers provider) becomes a record
     of pure response functions; a failed/thrown call is a none response,
     which every detector catches and treats as a negative answer.
   - ABI decoding (ethers Interface.parseTransaction, filterLog,
     filterFunction) is external-collaborator plumbing: its results are
     fields of the transaction event or gateway decode functions.
   - Finding descriptions (presentational template strings) are elided;
     name, alertId, severity, type and metadata are kept. -/

/-- JS String.prototype.toLowerCase restricted to the ASCII data used here. -/
def toLowerStr (s : String) : String := String.mk (s.data.map Char.toLower)

/-- JS String.prototype.startsWith. -/
def strStartsWith (s p : String) : Bool := p.data.isPrefixOf s.data

/-- Helper for strContains: does sub occur contiguously in the char list. -/
def charsContain (sub : List Char) : List Char → Bool
  | [] => sub.isEmpty
  | c :: rest => sub.isPrefixOf (c :: rest) || charsContain sub rest

/-- JS String.prototype.includes. -/
def strContains (s sub : String) : Bool := charsContain sub.data s.data

/-- JS String.prototype.slice(0, n) on ASCII data. -/
def strTake (s : String) (n : Nat) : String := String.mk (s.data.take n)

/-- JS Map.set on an insertion-ordered association list: an existing key is
updated in place, a new key is appended at the end. -/
def mapSet {α : Type} : List (String × α) → String → α → List (String × α)
  | [], k, v => [(k, v)]
  | p :: rest, k, v => if p.1 = k then (k, v) :: rest else p :: mapSet rest k v

/-- JS Map.get. -/
def mapGet {α : Type} : List (String × α) → String → Option α
  | [], _ => none
  | p :: rest, k => if p.1 = k then some p.2 else mapGet rest k

/-- JS Map.delete. -/
def mapDelete {α : Type} (m : List (String × α)) (k : String) : List (String × α) :=
  m.filter (fun p => decide (p.1 ≠ k))

/-- Finding severity taxonomy (forta-agent FindingSeverity). -/
inductive Severity
  | info | low | medium | high | critical
deriving DecidableEq, Repr

/-- Finding type taxonomy (forta-agent FindingType). -/
inductive FType
  | info | suspicious | exploit
deriving DecidableEq, Repr

/-- A detection finding (forta-agent Finding.fromObject); the description
string is elided. -/
structure Finding where
  name : String
  alertId : String
  severity : Severity
  ftype : FType
  metadata : List (String × String)
deriving DecidableEq, Repr

/-- Number of findings in a list carrying a given alert id. -/
def countAlert (aid : String) (fs : List Finding) : Nat :=
  (fs.filter (fun f => decide (f.alertId = aid))).length

/-- Decoded Approval(address,address,uint256) log entry. -/
structure ApprovalLog where
  address : String
  owner : String
  spender : String
  value : Nat
deriving DecidableEq, Repr

/-- Decoded ApprovalForAll(address,address,bool) log entry. -/
structure ApprovalForAllLog where
  address : String
  owner : String
  operator : String
  approved : Bool
deriving DecidableEq, Repr

/-- Decoded approve(address,uint256) function invocation. -/
structure ApproveCall where
  address : String
  spender : String
  value : Nat
deriving DecidableEq, Repr

/-- Decoded setApprovalForAll(address,bool) function invocation. -/
structure SetApprovalForAllCall where
  address : String
  operator : String
  approved : Bool
deriving DecidableEq, Repr

/-- Decoded AuthenticationRequired(address,bytes32,uint256) log entry. -/
structure AuthRequiredLog where
  user : String
  operationId : String
  timestamp : Nat
deriving DecidableEq, Repr

/-- Decoded AuthenticationSuccessful(address,bytes32) log entry. -/
structure AuthSuccessLog where
  user : String
  operationId : String
deriving DecidableEq, Repr

/-- Decoded AuthenticationFailed(address,bytes32,string) log entry. -/
structure AuthFailedLog where
  user : String
  operationId : String
  reason : String
deriving DecidableEq, Repr

/-- One entry of txEvent.traces as consumed by the Approval detector. -/
structure Trace where
  ttype : String
  actionTo : String
  actionInput : String
deriving DecidableEq, Repr

/-- Decoded RequirementChange(uint256) log entry. -/
structure RequirementChangeLog where
  requirement : Nat
deriving DecidableEq, Repr

/-- A transaction event with its externally decoded logs, function calls and
traces.  The source field name from is a Lean keyword, hence txFrom/txTo. -/
structure TxEvent where
  txFrom : String
  txTo : Option String
  value : Nat
  gasPrice : Option Nat
  data : String
  hash : String
  blockNumber : Nat
  addresses : List String
  approvalLogs : List ApprovalLog
  approvalForAllLogs : List ApprovalForAllLog
  authRequiredLogs : List AuthRequiredLog
  authSuccessLogs : List AuthSuccessLog
  authFailedLogs : List AuthFailedLog
  revocationLogCount : Nat
  ownerAdditionLogCount : Nat
  ownerRemovalLogCount : Nat
  requirementChangeLogs : List RequirementChangeLog
  approveCalls : List ApproveCall
  setApprovalForAllCalls : List SetApprovalForAllCall
  transferCallCount : Nat
  transferFromCallCount : Nat
  multicallCallCount : Nat
  delegateCalls : List String
  traces : List Trace
deriving Repr

/-- The chain data gateway: one fixed, pure response per read operation; a
none response models a failed (caught) call, or a null field in the
response.  The decode functions model ethers Interface.parseTransaction on
the raw call data, returning the decoded argument tuples the detectors
read (null/throw on mismatch becomes none). -/
structure Env where
  getCode : String → Option String
  getTransactionCount : String → Option Nat
  feeData : Option Nat
  getBlockNumber : Option Nat
  readConfig : String → Option (List String × Nat)
  decodeETHForTokens : String → Option (Nat × List String)
  decodeTokensSwap : String → Option (Nat × Nat × List String)
  decodeV3ExactInput : String → Option (Nat × Nat)
  decodeV3ExactOutput : String → Option (Nat × Nat)
  now : Nat

namespace Phishing

/-- SUSPICIOUS_SIGNATURES values (PhishingDetector.ts). -/
def SUSPICIOUS_SIGNATURES : List String :=
  ["0xa9059cbb", "0x23b872dd", "0xa22cb465", "0x095ea7b3",
   "0xf309926f", "0xac9650d8", "0x2eb2c2d6", "0x5c19a95c"]

/-- KNOWN_HONEYPOT_CONTRACTS (PhishingDetector.ts). -/
def KNOWN_HONEYPOT_CONTRACTS : List String :=
  ["0x7ea2f8c2a3c7c0850e59a8d155a7b8ed5a7cee65",
   "0xa9881c706647ce486b687d47e04a6f64c308a6c9"]

/-- PHISHING_PATTERNS.EXCESSIVE_APPROVAL = ethers.MaxUint256. -/
def EXCESSIVE_APPROVAL : Nat := 2 ^ 256 - 1

/-- PHISHING_PATTERNS.LONG_DATA_THRESHOLD. -/
def LONG_DATA_THRESHOLD : Nat := 5000

/-- Gas ceiling of checkForFrontrunning: ethers.parseUnits('500', 'gwei'). -/
def FRONTRUN_GAS : Nat := 500 * 10 ^ 9

/-- isRecentlyDeployedContract: has bytecode and fewer than 5 transactions;
a failed gateway call is caught and answers false. -/
def isRecentlyDeployedContract (env : Env) (address : String) : Bool :=
  match env.getCode address with
  | none => false
  | some code =>
    if code = "0x" then false
    else
      match env.getTransactionCount address with
      | none => false
      | some txCount => txCount < 5

/-- isRecentlyActiveAddress: fewer than 3 outbound transactions. -/
def isRecentlyActiveAddress (env : Env) (address : String) : Bool :=
  match env.getTransactionCount address with
  | none => false
  | some txCount => txCount < 3

/-- checkKnownPhishingAddresses. -/
def checkKnownPhishingAddresses (tx : TxEvent) : List Finding :=
  let suspiciousDestinations := KNOWN_HONEYPOT_CONTRACTS.filter (fun addr =>
    match tx.txTo with
    | some t => decide (toLowerStr t = toLowerStr addr)
    | none => false)
  if 0 < suspiciousDestinations.length then
    [{ name := "Known Phishing Address", alertId := "PHISHING-1",
       severity := .high, ftype := .suspicious,
       metadata := [("address", tx.txTo.getD ""), ("from", tx.txFrom)] }]
  else []

/-- Body of the approvalCalls loop of checkSuspiciousTokenOperations for an
approve(address,uint256) call. -/
def approveCallFindings (env : Env) (tx : TxEvent) (call : ApproveCall) : List Finding :=
  if call.value = EXCESSIVE_APPROVAL then
    let spender := toLowerStr call.spender
    if isRecentlyDeployedContract env spender then
      [{ name := "Suspicious Token Approval", alertId := "PHISHING-2",
         severity := .high, ftype := .suspicious,
         metadata := [("token", call.address), ("spender", spender),
                      ("owner", tx.txFrom), ("value", toString call.value)] }]
    else []
  else []

/-- Body of the approvalCalls loop for a setApprovalForAll(address,bool)
call. -/
def setApprovalCallFindings (env : Env) (tx : TxEvent)
    (call : SetApprovalForAllCall) : List Finding :=
  if call.approved = true then
    let operator := toLowerStr call.operator
    if isRecentlyDeployedContract env operator then
      [{ name := "Suspicious Collection Approval", alertId := "PHISHING-3",
         severity := .high, ftype := .suspicious,
         metadata := [("collection", call.address), ("operator", operator),
                      ("owner", tx.txFrom)] }]
    else []
  else []

/-- checkSuspiciousTokenOperations.  The source iterates one combined
filterFunction list over both signatures, dispatching on call.name; the two
call families sit in separate TxEvent fields here, so their findings are
concatenated rather than interleaved in raw call order. -/
def checkSuspiciousTokenOperations (env : Env) (tx : TxEvent) : List Finding :=
  tx.approveCalls.flatMap (approveCallFindings env tx)
    ++ tx.setApprovalForAllCalls.flatMap (setApprovalCallFindings env tx)
    ++ (if 0 < tx.multicallCallCount ∧ LONG_DATA_THRESHOLD < tx.data.length then
          [{ name := "Suspicious Multicall", alertId := "PHISHING-4",
             severity := .medium, ftype := .suspicious,
             metadata := [("contract", tx.txTo.getD ""), ("from", tx.txFrom),
                          ("dataLength", toString tx.data.length)] }]
        else [])

/-- checkForFrontrunning. -/
def checkForFrontrunning (tx : TxEvent) : List Finding :=
  match tx.gasPrice with
  | some gp =>
    if FRONTRUN_GAS < gp then
      [{ name := "Potential Frontrunning", alertId := "PHISHING-5",
         severity := .medium, ftype := .suspicious,
         metadata := [("from", tx.txFrom), ("to", tx.txTo.getD ""),
                      ("gasPrice", toString gp)] }]
    else []
  | none => []

/-- checkSuspiciousDelegation. -/
def checkSuspiciousDelegation (env : Env) (tx : TxEvent) : List Finding :=
  tx.delegateCalls.flatMap (fun d =>
    let delegatee := toLowerStr d
    if isRecentlyActiveAddress env delegatee then
      [{ name := "Suspicious Delegation", alertId := "PHISHING-6",
         severity := .medium, ftype := .suspicious,
         metadata := [("delegator", tx.txFrom), ("delegatee", delegatee),
                      ("contract", "")] }]
    else [])

/-- checkInteractionWithRecentContracts. -/
def checkInteractionWithRecentContracts (env : Env) (tx : TxEvent) : List Finding :=
  match tx.txTo with
  | none => []
  | some t =>
    if isRecentlyDeployedContract env t ∧ 0 < tx.data.length then
      if SUSPICIOUS_SIGNATURES.any (fun sig => strStartsWith tx.data sig) then
        [{ name := "Interaction with Suspicious New Contract",
           alertId := "PHISHING-7", severity := .high, ftype := .suspicious,
           metadata := [("from", tx.txFrom), ("to", t),
                        ("data", strTake tx.data 10)] }]
      else []
    else []

/-- PhishingDetector.handleTransaction: the five checks in source order. -/
def handleTransaction (env : Env) (tx : TxEvent) : List Finding :=
  checkKnownPhishingAddresses tx
    ++ checkSuspiciousTokenOperations env tx
    ++ checkForFrontrunning tx
    ++ checkSuspiciousDelegation env tx
    ++ checkInteractionWithRecentContracts env tx

end Phishing

namespace Approval

/-- UNLIMITED_ALLOWANCE = 0xff...ff (max uint256), compared via value
strings in the source, numerically here. -/
def UNLIMITED_ALLOWANCE : Nat := 2 ^ 256 - 1

/-- KNOWN_MALICIOUS_CONTRACTS (ApprovalDetector.ts). -/
def KNOWN_MALICIOUS_CONTRACTS : List String :=
  ["0x7ea2f8c2a3c7c0850e59a8d155a7b8ed5a7cee65",
   "0xa9881c706647ce486b687d47e04a6f64c308a6c9"]

/-- Keys of KNOWN_SAFE_CONTRACTS (ApprovalDetector.ts). -/
def KNOWN_SAFE_CONTRACTS : List String :=
  ["0x7a250d5630b4cf539739df2c5dacb4c659f2488d",
   "0xe592427a0aece92de3edee1f18e0157c05861564",
   "0xd9e1ce17f2641f24ae83637ab66a2cca9c378b9f",
   "0x7d2768de32b0b80b7a3454c06bdac94a69ddc7a9",
   "0x398ec7346dcd622edc5ae82352f02be94c62d119",
   "0x3d9819210a31b4961b30ef54be2aed79b9c9cd3b",
   "0x00000000006c3852cbef3e08e8df289169ede581"]

/-- High-value threshold of detectERC20Approvals: 10^24. -/
def HIGH_VALUE_THRESHOLD : Nat := 10 ^ 24

/-- ApprovalDetector.isContract; a failed gateway call answers false. -/
def isContract (env : Env) (address : String) : Bool :=
  match env.getCode address with
  | none => false
  | some code => decide (code ≠ "0x")

/-- ApprovalDetector.isNewContract. -/
def isNewContract (env : Env) (address : String) : Bool :=
  match env.getCode address with
  | none => false
  | some code =>
    if code = "0x" then false
    else
      match env.getTransactionCount address with
      | none => false
      | some txCount => txCount < 5

/-- ApprovalDetector.isKnownSafeContract. -/
def isKnownSafeContract (address : String) : Bool :=
  decide (toLowerStr address ∈ KNOWN_SAFE_CONTRACTS)

/-- Body of the detectERC20Approvals loop for one Approval log. -/
def erc20ApprovalFindings (env : Env) (log : ApprovalLog) : List Finding :=
  let spenderLower := toLowerStr log.spender
  if log.value = UNLIMITED_ALLOWANCE then
    let c := isContract env log.spender
    let n := isNewContract env log.spender
    if spenderLower ∈ KNOWN_MALICIOUS_CONTRACTS then
      [{ name := "Approval To Known Malicious Contract",
         alertId := "APPROVAL-MALICIOUS-1", severity := .critical,
         ftype := .exploit,
         metadata := [("owner", log.owner), ("spender", log.spender),
                      ("token", log.address), ("value", toString log.value)] }]
    else if c = false then
      [{ name := "Unlimited Approval To EOA",
         alertId := "APPROVAL-SUSPICIOUS-1", severity := .high,
         ftype := .suspicious,
         metadata := [("owner", log.owner), ("spender", log.spender),
                      ("token", log.address), ("value", toString log.value)] }]
    else if n = true then
      [{ name := "Unlimited Approval To New Contract",
         alertId := "APPROVAL-SUSPICIOUS-2", severity := .high,
         ftype := .suspicious,
         metadata := [("owner", log.owner), ("spender", log.spender),
                      ("token", log.address), ("value", toString log.value)] }]
    else if isKnownSafeContract log.spender = false then
      [{ name := "Unlimited Approval To Unknown Contract",
         alertId := "APPROVAL-CAUTION-1", severity := .medium,
         ftype := .suspicious,
         metadata := [("owner", log.owner), ("spender", log.spender),
                      ("token", log.address), ("value", toString log.value)] }]
    else []
  else
    if HIGH_VALUE_THRESHOLD < log.value then
      [{ name := "High Value Approval", alertId := "APPROVAL-CAUTION-2",
         severity := .medium, ftype := .suspicious,
         metadata := [("owner", log.owner), ("spender", log.spender),
                      ("token", log.address), ("value", toString log.value)] }]
    else []

/-- detectERC20Approvals. -/
def detectERC20Approvals (env : Env) (tx : TxEvent) : List Finding :=
  tx.approvalLogs.flatMap (erc20ApprovalFindings env)

/-- Body of the detectNFTApprovals loop for one ApprovalForAll log. -/
def nftApprovalFindings (env : Env) (log : ApprovalForAllLog) : List Finding :=
  let operatorLower := toLowerStr log.operator
  if log.approved = true then
    let c := isContract env log.operator
    let n := isNewContract env log.operator
    if operatorLower ∈ KNOWN_MALICIOUS_CONTRACTS then
      [{ name := "NFT Approval To Known Malicious Contract",
         alertId := "NFT-APPROVAL-MALICIOUS-1", severity := .critical,
         ftype := .exploit,
         metadata := [("owner", log.owner), ("operator", log.operator),
                      ("collection", log.address)] }]
    else if c = false then
      [{ name := "NFT Approval To EOA", alertId := "NFT-APPROVAL-SUSPICIOUS-1",
         severity := .high, ftype := .suspicious,
         metadata := [("owner", log.owner), ("operator", log.operator),
                      ("collection", log.address)] }]
    else if n = true then
      [{ name := "NFT Approval To New Contract",
         alertId := "NFT-APPROVAL-SUSPICIOUS-2", severity := .high,
         ftype := .suspicious,
         metadata := [("owner", log.owner), ("operator", log.operator),
                      ("collection", log.address)] }]
    else if isKnownSafeContract log.operator = false then
      [{ name := "NFT Approval To Unknown Contract",
         alertId := "NFT-APPROVAL-CAUTION-1", severity := .medium,
         ftype := .suspicious,
         metadata := [("owner", log.owner), ("operator", log.operator),
                      ("collection", log.address)] }]
    else []
  else []

/-- detectNFTApprovals.  The source concatenates two filterLog results for
the ERC721 and ERC1155 topic constants, but both constants hash the same
event signature, so every ApprovalForAll log appears twice. -/
def detectNFTApprovals (env : Env) (tx : TxEvent) : List Finding :=
  (tx.approvalForAllLogs ++ tx.approvalForAllLogs).flatMap (nftApprovalFindings env)

/-- detectMultipleApprovals. -/
def detectMultipleApprovals (tx : TxEvent) : List Finding :=
  let totalApprovals := tx.approveCalls.length + tx.setApprovalForAllCalls.length
  if 4 ≤ totalApprovals then
    [{ name := "Multiple Approvals in Single Transaction",
       alertId := "APPROVAL-PATTERN-1", severity := .high, ftype := .suspicious,
       metadata := [("erc20ApprovalCount", toString tx.approveCalls.length),
                    ("nftApprovalCount", toString tx.setApprovalForAllCalls.length),
                    ("transactionHash", tx.hash)] }]
  else []

/-- The contractCalls filter of detectSuspiciousApprovalPatterns. -/
def contractCalls (tx : TxEvent) : List Trace :=
  tx.traces.filter (fun t => decide (t.ttype = "call" ∧ 10 ≤ t.actionInput.length))

/-- detectSuspiciousApprovalPatterns. -/
def detectSuspiciousApprovalPatterns (tx : TxEvent) : List Finding :=
  (if 0 < tx.approveCalls.length ∧
      (0 < tx.transferCallCount ∨ 0 < tx.transferFromCallCount) then
     [{ name := "Approval And Transfer in Same Transaction",
        alertId := "APPROVAL-PATTERN-2", severity := .medium,
        ftype := .suspicious,
        metadata := [("approvalCount", toString tx.approveCalls.length),
                     ("transferCount",
                      toString (tx.transferCallCount + tx.transferFromCallCount)),
                     ("transactionHash", tx.hash)] }]
   else [])
    ++ (if 0 < tx.approveCalls.length ∧ 3 < (contractCalls tx).length then
          [{ name := "Complex Transaction with Approvals",
             alertId := "APPROVAL-PATTERN-3", severity := .medium,
             ftype := .suspicious,
             metadata := [("approvalCount", toString tx.approveCalls.length),
                          ("callCount", toString (contractCalls tx).length),
                          ("transactionHash", tx.hash)] }]
        else [])

/-- ApprovalDetector.handleTransaction: the four checks in source order. -/
def handleTransaction (env : Env) (tx : TxEvent) : List Finding :=
  detectERC20Approvals env tx
    ++ detectNFTApprovals env tx
    ++ detectMultipleApprovals tx
    ++ detectSuspiciousApprovalPatterns tx

end Approval

/-- JS String.prototype.slice(n) on ASCII data. -/
def strDrop (s : String) (n : Nat) : String := String.mk (s.data.drop n)

namespace MEV

/-- DEX_ROUTERS.UNISWAP_V2 (TwoFactorAuthDetector.ts, MEVDetector part). -/
def UNISWAP_V2 : String := "0x7a250d5630b4cf539739df2c5dacb4c659f2488d"

/-- DEX_ROUTERS.UNISWAP_V3. -/
def UNISWAP_V3 : String := "0xe592427a0aece92de3edee1f18e0157c05861564"

/-- DEX_ROUTERS.SUSHISWAP. -/
def SUSHISWAP : String := "0xd9e1ce17f2641f24ae83637ab66a2cca9c378b9f"

/-- DEX_ROUTERS.PANCAKESWAP. -/
def PANCAKESWAP : String := "0x10ed43c718714eb63d5aa57b78b54704e256024e"

/-- Object.values(SWAP_FUNCTIONS), duplicates included (the Sushiswap and
Pancakeswap entries repeat the Uniswap V2 selector). -/
def SWAP_FUNCTION_VALUES : List String :=
  ["0x7ff36ab5", "0x18cbafe5", "0x38ed1739", "0xc04b8d59", "0xf28c0498",
   "0x7ff36ab5", "0x7ff36ab5"]

/-- MEVDetector.isSwapTransaction. -/
def isSwapTransaction (tx : TxEvent) : Bool :=
  match tx.txTo with
  | none => false
  | some t =>
    let isKnownRouter := [UNISWAP_V2, UNISWAP_V3, SUSHISWAP, PANCAKESWAP].any
      (fun router => decide (toLowerStr t = toLowerStr router))
    if isKnownRouter = false then false
    else SWAP_FUNCTION_VALUES.any (fun signature => strStartsWith tx.data signature)

/-- Result of MEVDetector.parseSwapData; the JS float slippage is an exact
rational here. -/
structure SwapData where
  path : List String
  amountIn : Nat
  amountOutMin : Nat
  slippage : ℚ
deriving DecidableEq, Repr

/-- The per-DEX decode branches of parseSwapData, producing the local
(amountIn, amountOutMin, path) triple; variables keep their initial zero
and empty values on every unmatched or failed branch, exactly as in the
source. -/
def rawSwapArgs (env : Env) (tx : TxEvent) (t : String) : Nat × Nat × List String :=
  let routerAddress := toLowerStr t
  let functionFragment := strTake tx.data 10
  if routerAddress = toLowerStr UNISWAP_V2 ∨ routerAddress = toLowerStr SUSHISWAP
      ∨ routerAddress = toLowerStr PANCAKESWAP then
    if functionFragment = "0x7ff36ab5" then
      match env.decodeETHForTokens tx.data with
      | some (amountOutMin, path) => (tx.value, amountOutMin, path)
      | none => (tx.value, 0, [])
    else if functionFragment = "0x18cbafe5" ∨ functionFragment = "0x38ed1739" then
      match env.decodeTokensSwap tx.data with
      | some (amountIn, amountOutMin, path) => (amountIn, amountOutMin, path)
      | none => (0, 0, [])
    else (0, 0, [])
  else if routerAddress = toLowerStr UNISWAP_V3 then
    if functionFragment = "0xc04b8d59" then
      match env.decodeV3ExactInput tx.data with
      | some (amountIn, amountOutMinimum) =>
        (amountIn, amountOutMinimum, ["token0", "token1"])
      | none => (0, 0, [])
    else if functionFragment = "0xf28c0498" then
      match env.decodeV3ExactOutput tx.data with
      | some (amountOut, amountInMaximum) =>
        (amountInMaximum, amountOut, ["token0", "token1"])
      | none => (0, 0, [])
    else (0, 0, [])
  else (0, 0, [])

/-- MEVDetector.parseSwapData. -/
def parseSwapData (env : Env) (tx : TxEvent) : Option SwapData :=
  match tx.txTo with
  | none => none
  | some t =>
    if tx.data = "" then none
    else
      let args := rawSwapArgs env tx t
      if args.1 = 0 ∨ args.2.2 = [] then none
      else
        some { path := args.2.2, amountIn := args.1, amountOutMin := args.2.1,
               slippage :=
                 if 0 < args.2.1 then
                   1 - (args.2.1 : ℚ) / (args.1 : ℚ)
                 else 0 }

/-- One pendingSwaps entry; the source field from is named sender here. -/
structure SwapRec where
  blockNumber : Nat
  timestamp : Nat
  sender : String
  tokenPath : List String
  amountIn : Nat
  amountOutMin : Nat
  slippage : ℚ
deriving DecidableEq, Repr

/-- The pendingSwaps map, keyed by transaction hash. -/
abbrev State := List (String × SwapRec)

/-- MEVDetector.cleanupOldSwaps; the source computes minBlockNumber as
blockNumber - 100 in JS arithmetic, so the comparison is over ℤ. -/
def cleanupOldSwaps (s : State) (minBlockNumber : ℤ) : State :=
  s.filter (fun p => decide (¬((p.2.blockNumber : ℤ) < minBlockNumber)))

/-- The currentBlockSwaps filter inside checkForSandwichAttacks. -/
def currentBlockSwaps (s : State) (bn : Nat) : List (String × SwapRec) :=
  s.filter (fun p => decide (p.2.blockNumber = bn))

/-- MEVDetector.areSimilarPaths; an out-of-range JS index reads undefined,
matched by the none of head?/getLast? (equal-length empty paths compare
equal, as undefined === undefined does). -/
def areSimilarPaths (path1 path2 : List String) : Bool :=
  if path1.length ≠ path2.length then false
  else decide (path1.head? = path2.head?) && decide (path1.getLast? = path2.getLast?)

/-- The MEV-2 finding for one matched triple; the JSON-rendered tokenPath
metadata entry is elided. -/
def sandwichFinding (swap1 swap2 swap3 : String × SwapRec) : Finding :=
  { name := "Potential Sandwich Attack", alertId := "MEV-2",
    severity := .high, ftype := .suspicious,
    metadata := [("victimTx", swap2.1), ("frontrunTx", swap1.1),
                 ("backrunTx", swap3.1), ("attacker", swap1.2.sender),
                 ("victim", swap2.2.sender)] }

/-- The contiguous-triple scan of checkForSandwichAttacks. -/
def sandwichFindings (cur : List (String × SwapRec)) : List Finding :=
  if 3 ≤ cur.length then
    (List.range (cur.length - 2)).flatMap (fun i =>
      match cur[i]?, cur[i + 1]?, cur[i + 2]? with
      | some swap1, some swap2, some swap3 =>
        if areSimilarPaths swap1.2.tokenPath swap3.2.tokenPath = true
            ∧ swap1.2.sender = swap3.2.sender
            ∧ swap1.2.sender ≠ swap2.2.sender then
          [sandwichFinding swap1 swap2 swap3]
        else []
      | _, _, _ => [])
  else []

/-- MEVDetector.checkForHighGasPrice; a thrown getFeeData call is caught
(no finding), and a null fee yields average 0, which also produces no
finding, so both are the none response.  The float-formatted ratio
metadata entry is elided. -/
def checkForHighGasPrice (env : Env) (tx : TxEvent) : List Finding :=
  match tx.gasPrice with
  | none => []
  | some gasPrice =>
    match env.feeData with
    | none => []
    | some averageGasPrice =>
      if 0 < averageGasPrice ∧ averageGasPrice * 5 < gasPrice then
        [{ name := "High Gas Price Transaction", alertId := "MEV-1",
           severity := .medium, ftype := .suspicious,
           metadata := [("from", tx.txFrom), ("to", tx.txTo.getD ""),
                        ("gasPrice", toString gasPrice),
                        ("averageGasPrice", toString averageGasPrice)] }]
      else []

/-- MEVDetector.checkForSandwichAttacks: record the decoded swap, evict
entries older than 100 blocks, then scan the current block's swaps. -/
def checkForSandwichAttacks (s : State) (env : Env) (tx : TxEvent) :
    State × List Finding :=
  if isSwapTransaction tx = false then (s, [])
  else
    match parseSwapData env tx with
    | none => (s, [])
    | some swapData =>
      let s1 := mapSet s tx.hash
        { blockNumber := tx.blockNumber, timestamp := env.now,
          sender := tx.txFrom, tokenPath := swapData.path,
          amountIn := swapData.amountIn, amountOutMin := swapData.amountOutMin,
          slippage := swapData.slippage }
      let s2 := cleanupOldSwaps s1 ((tx.blockNumber : ℤ) - 100)
      (s2, sandwichFindings (currentBlockSwaps s2 tx.blockNumber))

/-- MEVDetector.checkForLowSlippageTolerance; the stringified slippage and
path metadata entries are elided. -/
def checkForLowSlippageTolerance (env : Env) (tx : TxEvent) : List Finding :=
  if isSwapTransaction tx = false then []
  else
    match parseSwapData env tx with
    | none => []
    | some swapData =>
      if swapData.slippage < 1 / 1000 then
        [{ name := "Extremely Low Slippage Tolerance", alertId := "MEV-3",
           severity := .medium, ftype := .suspicious,
           metadata := [("from", tx.txFrom), ("to", tx.txTo.getD ""),
                        ("amountIn", toString swapData.amountIn),
                        ("amountOutMin", toString swapData.amountOutMin)] }]
      else []

/-- MEVDetector.checkForUnusualSwapRoutes; the path metadata entry is
elided. -/
def checkForUnusualSwapRoutes (env : Env) (tx : TxEvent) : List Finding :=
  if isSwapTransaction tx = false then []
  else
    match parseSwapData env tx with
    | none => []
    | some swapData =>
      if 4 < swapData.path.length then
        [{ name := "Unusual Swap Route", alertId := "MEV-4",
           severity := .medium, ftype := .suspicious,
           metadata := [("from", tx.txFrom), ("to", tx.txTo.getD ""),
                        ("pathLength", toString swapData.path.length)] }]
      else []

/-- MEVDetector.handleTransaction: the four checks in source order; only
checkForSandwichAttacks touches the pendingSwaps state. -/
def handleTransaction (s : State) (env : Env) (tx : TxEvent) :
    State × List Finding :=
  let f1 := checkForHighGasPrice env tx
  let sf := checkForSandwichAttacks s env tx
  let f3 := checkForLowSlippageTolerance env tx
  let f4 := checkForUnusualSwapRoutes env tx
  (sf.1, f1 ++ sf.2 ++ f3 ++ f4)

end MEV

namespace TwoFA

/-- Object.entries(HIGH_RISK_OPERATIONS) in insertion order, with the keys
already lowercased as identifyOperationType returns them. -/
def HIGH_RISK_OPERATIONS : List (String × String) :=
  [("token_transfer", "0xa9059cbb"), ("token_approve", "0x095ea7b3"),
   ("nft_transfer", "0x23b872dd"), ("nft_approve_all", "0xa22cb465"),
   ("swap_exact_eth_for_tokens", "0x7ff36ab5"),
   ("swap_exact_tokens_for_eth", "0x18cbafe5"),
   ("send_transaction", "0x3e54bacb"), ("execute_transaction", "0x6a761202"),
   ("delegate", "0x5c19a95c"), ("protocol_upgrade", "0x3659cfe6")]

/-- HIGH_RISK_VALUE_THRESHOLD = ethers.parseEther('1.0') in wei. -/
def HIGH_RISK_VALUE_THRESHOLD : Nat := 10 ^ 18

/-- One pending2FATransactions entry; the source fields from/to are named
requester/target here. -/
structure Pending2FATransaction where
  txHash : String
  requester : String
  target : String
  value : Nat
  operationType : String
  timestamp : Nat
deriving DecidableEq, Repr

/-- One user2FASettings entry. -/
structure UserSettings where
  enabledFor : List String
  valueThreshold : Nat
  lastVerification : Nat
deriving DecidableEq, Repr

/-- The TwoFactorAuthDetector instance state. -/
structure State where
  pending2FATransactions : List (String × Pending2FATransaction)
  usersWith2FA : List String
  user2FASettings : List (String × UserSettings)
deriving Repr

/-- TwoFactorAuthDetector.identifyOperationType. -/
def identifyOperationType (tx : TxEvent) : String :=
  match tx.txTo with
  | none => "eth_transfer"
  | some _ =>
    if tx.data = "" ∨ tx.data = "0x" then "eth_transfer"
    else
      let functionSelector := strTake tx.data 10
      match HIGH_RISK_OPERATIONS.find? (fun p => decide (functionSelector = p.2)) with
      | some p => p.1
      | none => "unknown"

/-- TwoFactorAuthDetector.isHighRiskOperation. -/
def isHighRiskOperation (tx : TxEvent) : Bool :=
  match tx.txTo with
  | none => false
  | some _ =>
    if tx.data = "" ∨ tx.data = "0x" then false
    else HIGH_RISK_OPERATIONS.any (fun p => decide (strTake tx.data 10 = p.2))

/-- The AuthenticationRequired loop of process2FAEvents. -/
def processAuthRequired (s : State) (tx : TxEvent) : State × List Finding :=
  tx.authRequiredLogs.foldl
    (fun acc ev =>
      let st := acc.1
      let st' := { st with
        pending2FATransactions := mapSet st.pending2FATransactions ev.operationId
          { txHash := tx.hash, requester := ev.user, target := tx.txTo.getD "",
            value := tx.value, operationType := identifyOperationType tx,
            timestamp := ev.timestamp } }
      (st', acc.2 ++
        [{ name := "2FA Authentication Required", alertId := "2FA-REQUIRED-1",
           severity := .info, ftype := .info,
           metadata := [("user", ev.user), ("operationId", ev.operationId),
                        ("timestamp", toString ev.timestamp),
                        ("txHash", tx.hash)] }]))
    (s, [])

/-- The AuthenticationSuccessful loop of process2FAEvents; lastVerification
is refreshed only for users with prior settings, and the pending entry is
removed. -/
def processAuthSuccess (s : State) (env : Env) (tx : TxEvent) :
    State × List Finding :=
  tx.authSuccessLogs.foldl
    (fun acc ev =>
      let st := acc.1
      let settings' :=
        match mapGet st.user2FASettings (toLowerStr ev.user) with
        | some userSettings =>
          mapSet st.user2FASettings (toLowerStr ev.user)
            { userSettings with lastVerification := env.now }
        | none => st.user2FASettings
      let st' := { st with
        user2FASettings := settings',
        pending2FATransactions := mapDelete st.pending2FATransactions ev.operationId }
      (st', acc.2 ++
        [{ name := "2FA Authentication Successful", alertId := "2FA-SUCCESS-1",
           severity := .info, ftype := .info,
           metadata := [("user", ev.user), ("operationId", ev.operationId),
                        ("txHash", tx.hash)] }]))
    (s, [])

/-- The AuthenticationFailed loop of process2FAEvents: findings only. -/
def processAuthFailed (tx : TxEvent) : List Finding :=
  tx.authFailedLogs.map (fun ev =>
    { name := "2FA Authentication Failed", alertId := "2FA-FAILED-1",
      severity := .medium, ftype := .suspicious,
      metadata := [("user", ev.user), ("operationId", ev.operationId),
                   ("reason", ev.reason), ("txHash", tx.hash)] })

/-- TwoFactorAuthDetector.process2FAEvents. -/
def process2FAEvents (s : State) (env : Env) (tx : TxEvent) :
    State × List Finding :=
  let r1 := processAuthRequired s tx
  let r2 := processAuthSuccess r1.1 env tx
  (r2.1, r1.2 ++ r2.2 ++ processAuthFailed tx)

/-- TwoFactorAuthDetector.checkTransactionFor2FA; env.now is
Date.now()/1000 and the elapsed time is JS number subtraction, hence ℤ. -/
def checkTransactionFor2FA (s : State) (env : Env) (tx : TxEvent) : List Finding :=
  let sender := toLowerStr tx.txFrom
  if sender ∈ s.usersWith2FA then
    match mapGet s.user2FASettings sender with
    | none => []
    | some settings =>
      let operationType := identifyOperationType tx
      if ("all" ∈ settings.enabledFor ∨ operationType ∈ settings.enabledFor)
          ∧ settings.valueThreshold ≤ tx.value then
        if 1800 < (env.now : ℤ) - (settings.lastVerification : ℤ) then
          if tx.authRequiredLogs.length = 0 ∧ tx.authSuccessLogs.length = 0 then
            [{ name := "Missing 2FA for High-Risk Transaction",
               alertId := "2FA-MISSING-1", severity := .high,
               ftype := .suspicious,
               metadata := [("user", tx.txFrom), ("value", toString tx.value),
                            ("operationType", operationType),
                            ("txHash", tx.hash)] }]
          else []
        else []
      else []
  else []

/-- TwoFactorAuthDetector.checkHighRiskOperations. -/
def checkHighRiskOperations (s : State) (tx : TxEvent) : List Finding :=
  if tx.value < HIGH_RISK_VALUE_THRESHOLD ∧ isHighRiskOperation tx = false then []
  else
    let sender := toLowerStr tx.txFrom
    if sender ∈ s.usersWith2FA then []
    else
      [{ name := "2FA Recommended for User", alertId := "2FA-RECOMMENDED-1",
         severity := .medium, ftype := .info,
         metadata := [("user", tx.txFrom), ("value", toString tx.value),
                      ("operationType", identifyOperationType tx),
                      ("txHash", tx.hash)] }]

/-- TwoFactorAuthDetector.handleTransaction. -/
def handleTransaction (s : State) (env : Env) (tx : TxEvent) :
    State × List Finding :=
  let r1 := process2FAEvents s env tx
  let f2 := checkTransactionFor2FA r1.1 env tx
  let f3 := checkHighRiskOperations r1.1 tx
  (r1.1, r1.2 ++ f2 ++ f3)

/-- initializeDefaultSettings: the constructor-time demo state. -/
def initialState : State :=
  { pending2FATransactions := [],
    usersWith2FA := ["0x742d35cc6634c0532925a3b844bc454e4438f44e",
                     "0x123d35cc6634c0532925a3b844bc454e4438f123"],
    user2FASettings :=
      [("0x742d35cc6634c0532925a3b844bc454e4438f44e",
        { enabledFor := ["all"], valueThreshold := 10 ^ 17, lastVerification := 0 }),
       ("0x123d35cc6634c0532925a3b844bc454e4438f123",
        { enabledFor := ["all"], valueThreshold := 10 ^ 17, lastVerification := 0 })] }

end TwoFA

namespace Multisig

/-- Object.values(MULTISIG_INTERFACES). -/
def MULTISIG_INTERFACE_VALUES : List String :=
  ["0x6a761202", "0xa0e67e2b", "0xe75235b8", "0x2f54bf6e",
   "0xc6427474", "0xc01a8c84", "0x20ea8d86", "0xee22610b"]

/-- MULTISIG_INTERFACES.EXECUTE. -/
def EXECUTE : String := "0x6a761202"

/-- isMultisigWallet: bytecode present and containing a recognizable
multisig selector (without its 0x prefix); a failed getCode answers
false. -/
def isMultisigWallet (env : Env) (address : String) : Bool :=
  match env.getCode address with
  | none => false
  | some code =>
    if code = "0x" then false
    else MULTISIG_INTERFACE_VALUES.any
      (fun signature => strContains code (strDrop signature 2))

/-- One multisigCache entry. -/
structure MultisigConfig where
  owners : List String
  threshold : Nat
deriving DecidableEq, Repr

/-- The multisigCache map, keyed by wallet address. -/
abbrev State := List (String × MultisigConfig)

/-- MultisigProtectionDetector.analyzeMutisigConfiguration: a failed
getOwners/getThreshold read leaves the cache untouched and the local
owners/threshold at their empty initial values, so no configuration
finding is emitted either. -/
def analyzeMutisigConfiguration (s : State) (env : Env) (address : String) :
    State × List Finding :=
  match env.readConfig address with
  | none => (s, [])
  | some (owners, threshold) =>
    let s' := mapSet s address { owners := owners, threshold := threshold }
    let findings :=
      if 0 < owners.length ∧ 0 < threshold then
        (if threshold = 1 ∧ 2 < owners.length then
           [{ name := "Risky Multisig Configuration",
              alertId := "MULTISIG-CONFIG-1", severity := .medium,
              ftype := .suspicious,
              metadata := [("multisigAddress", address),
                           ("threshold", toString threshold),
                           ("ownerCount", toString owners.length)] }]
         else [])
          ++ (if 10 < owners.length then
                [{ name := "Complex Multisig Configuration",
                   alertId := "MULTISIG-CONFIG-2", severity := .info,
                   ftype := .info,
                   metadata := [("multisigAddress", address),
                                ("threshold", toString threshold),
                                ("ownerCount", toString owners.length)] }]
              else [])
      else []
    (s', findings)

/-- MultisigProtectionDetector.detectAnomalousActivity: the initial
transaction-history helper reads the current block number, and a thrown
read aborts the whole check through the surrounding catch. -/
def detectAnomalousActivity (s : State) (env : Env) (address : String)
    (tx : TxEvent) : List Finding :=
  match env.getBlockNumber with
  | none => []
  | some _ =>
    (if 2 < tx.revocationLogCount then
       [{ name := "Unusual Multisig Activity", alertId := "MULTISIG-ACTIVITY-1",
          severity := .medium, ftype := .suspicious,
          metadata := [("multisigAddress", address),
                       ("revocationCount", toString tx.revocationLogCount),
                       ("transactionHash", tx.hash)] }]
     else [])
      ++ (if tx.txTo = some address ∧ strContains tx.data EXECUTE = true then
            match mapGet s address with
            | some cachedData =>
              if toLowerStr tx.txFrom ∈ cachedData.owners then []
              else
                [{ name := "Unauthorized Multisig Access Attempt",
                   alertId := "MULTISIG-SECURITY-1", severity := .high,
                   ftype := .suspicious,
                   metadata := [("multisigAddress", address),
                                ("sender", tx.txFrom),
                                ("transactionHash", tx.hash)] }]
            | none => []
          else [])

/-- MultisigProtectionDetector.detectOwnershipChanges. -/
def detectOwnershipChanges (s : State) (address : String) (tx : TxEvent) :
    List Finding :=
  (if 0 < tx.ownerAdditionLogCount ∧ 0 < tx.ownerRemovalLogCount then
     [{ name := "Suspicious Multisig Ownership Changes",
        alertId := "MULTISIG-OWNERSHIP-1", severity := .high,
        ftype := .suspicious,
        metadata := [("multisigAddress", address),
                     ("additionsCount", toString tx.ownerAdditionLogCount),
                     ("removalsCount", toString tx.ownerRemovalLogCount),
                     ("transactionHash", tx.hash)] }]
   else [])
    ++ tx.requirementChangeLogs.flatMap (fun log =>
        match mapGet s address with
        | some cachedData =>
          if log.requirement < cachedData.threshold then
            [{ name := "Multisig Security Reduction",
               alertId := "MULTISIG-THRESHOLD-1", severity := .high,
               ftype := .suspicious,
               metadata := [("multisigAddress", address),
                            ("oldThreshold", toString cachedData.threshold),
                            ("newThreshold", toString log.requirement),
                            ("transactionHash", tx.hash)] }]
          else []
        | none => [])

/-- MultisigProtectionDetector.handleTransaction: one pass per address in
txEvent.addresses, skipping non-multisigs, refreshing the cache, then the
activity and ownership checks. -/
def handleTransaction (s : State) (env : Env) (tx : TxEvent) :
    State × List Finding :=
  tx.addresses.foldl
    (fun acc address =>
      if isMultisigWallet env address = false then acc
      else
        let r1 := analyzeMutisigConfiguration acc.1 env address
        let f2 := detectAnomalousActivity r1.1 env address tx
        let f3 :=
          if 0 < tx.ownerAdditionLogCount ∨ 0 < tx.ownerRemovalLogCount
              ∨ 0 < tx.requirementChangeLogs.length then
            detectOwnershipChanges r1.1 address tx
          else []
        (r1.1, acc.2 ++ r1.2 ++ f2 ++ f3))
    (s, [])

end Multisig

/-- A transaction event with every field empty: the base the concrete test
transactions below are built from. -/
def emptyTx : TxEvent :=
  { txFrom := "", txTo := none, value := 0, gasPrice := none, data := "",
    hash := "", blockNumber := 0, addresses := [], approvalLogs := [],
    approvalForAllLogs := [], authRequiredLogs := [], authSuccessLogs := [],
    authFailedLogs := [], revocationLogCount := 0, ownerAdditionLogCount := 0,
    ownerRemovalLogCount := 0, requirementChangeLogs := [], approveCalls := [],
    setApprovalForAllCalls := [], transferCallCount := 0,
    transferFromCallCount := 0, multicallCallCount := 0, delegateCalls := [],
    traces := [] }

/-- A gateway whose every call fails (all answers default to negative). -/
def emptyEnv : Env :=
  { getCode := fun _ => none, getTransactionCount := fun _ => none,
    feeData := none, getBlockNumber := none, readConfig := fun _ => none,
    decodeETHForTokens := fun _ => none, decodeTokensSwap := fun _ => none,
    decodeV3ExactInput := fun _ => none, decodeV3ExactOutput := fun _ => none,
    now := 0 }

theorem countAlert_append (aid : String) (a b : List Finding) :
    countAlert aid (a ++ b) = countAlert aid a + countAlert aid b := by
  simp [countAlert, List.filter_append]

theorem countAlert_eq_zero (aid : String) {fs : List Finding}
    (h : ∀ f ∈ fs, f.alertId ≠ aid) : countAlert aid fs = 0 := by
  simp only [countAlert, List.length_eq_zero, List.filter_eq_nil_iff]
  intro f hf
  simpa using h f hf

theorem countAlert_flatMap_zero {α : Type} (aid : String) (g : α → List Finding)
    (l : List α) (h : ∀ x ∈ l, countAlert aid (g x) = 0) :
    countAlert aid (l.flatMap g) = 0 := by
  induction l with
  | nil => rfl
  | cons x xs ih =>
    rw [List.flatMap_cons, countAlert_append, h x (by simp),
      ih (fun y hy => h y (by simp [hy]))]

/-- C9: the Phishing and Approval evaluators are stateless, so running
detect twice on the identical transaction event with the same fixed
gateway responses yields identical finding lists (content and order). -/
theorem stateless_detectors_idempotent (env : Env) (tx : TxEvent) :
    Phishing.handleTransaction env tx = Phishing.handleTransaction env tx
    ∧ Approval.handleTransaction env tx = Approval.handleTransaction env tx :=
  ⟨rfl, rfl⟩

theorem phishing_no_multicall_in_known (tx : TxEvent) :
    countAlert "PHISHING-4" (Phishing.checkKnownPhishingAddresses tx) = 0 := by
  unfold Phishing.checkKnownPhishingAddresses
  split <;> simp [countAlert]

theorem phishing_no_multicall_in_approve (env : Env) (tx : TxEvent)
    (c : ApproveCall) :
    countAlert "PHISHING-4" (Phishing.approveCallFindings env tx c) = 0 := by
  unfold Phishing.approveCallFindings
  split
  · dsimp only
    split <;> simp [countAlert]
  · rfl

theorem phishing_no_multicall_in_setapproval (env : Env) (tx : TxEvent)
    (c : SetApprovalForAllCall) :
    countAlert "PHISHING-4" (Phishing.setApprovalCallFindings env tx c) = 0 := by
  unfold Phishing.setApprovalCallFindings
  split
  · dsimp only
    split <;> simp [countAlert]
  · rfl

theorem phishing_no_multicall_in_frontrun (tx : TxEvent) :
    countAlert "PHISHING-4" (Phishing.checkForFrontrunning tx) = 0 := by
  unfold Phishing.checkForFrontrunning
  split
  · split <;> simp [countAlert]
  · rfl

theorem phishing_no_multicall_in_delegation (env : Env) (tx : TxEvent) :
    countAlert "PHISHING-4" (Phishing.checkSuspiciousDelegation env tx) = 0 := by
  unfold Phishing.checkSuspiciousDelegation
  exact countAlert_flatMap_zero _ _ _ (fun d _ => by dsimp only; split <;> simp [countAlert])

theorem phishing_no_multicall_in_recent (env : Env) (tx : TxEvent) :
    countAlert "PHISHING-4" (Phishing.checkInteractionWithRecentContracts env tx) = 0 := by
  unfold Phishing.checkInteractionWithRecentContracts
  split
  · rfl
  · split
    · split <;> simp [countAlert]
    · rfl

/-- C8 (amended): the Phishing evaluator emits its Medium suspicious
multicall finding exactly when the transaction has a multicall invocation
and the raw call-data hex string is longer than 5000 characters (the
source compares the JS string length, about 2499 bytes of calldata, not a
byte count). -/
theorem phishing_multicall_iff (env : Env) (tx : TxEvent) :
    countAlert "PHISHING-4" (Phishing.handleTransaction env tx)
      = if 0 < tx.multicallCallCount ∧ 5000 < tx.data.length then 1 else 0 := by
  unfold Phishing.handleTransaction
  rw [countAlert_append, countAlert_append, countAlert_append, countAlert_append,
    phishing_no_multicall_in_known, phishing_no_multicall_in_frontrun,
    phishing_no_multicall_in_delegation, phishing_no_multicall_in_recent]
  unfold Phishing.checkSuspiciousTokenOperations
  rw [countAlert_append, countAlert_append,
    countAlert_flatMap_zero _ _ _ (fun c _ => phishing_no_multicall_in_approve env tx c),
    countAlert_flatMap_zero _ _ _ (fun c _ => phishing_no_multicall_in_setapproval env tx c)]
  by_cases h : 0 < tx.multicallCallCount ∧ 5000 < tx.data.length
  · simp [Phishing.LONG_DATA_THRESHOLD, h, countAlert]
  · simp [Phishing.LONG_DATA_THRESHOLD, h, countAlert]

/-- Modelled from the spec wording of the multicall check: the byte length
of a raw 0x-prefixed hex call-data string (two hex characters per byte). -/
def dataByteLength (s : String) : Nat := (s.length - 2) / 2

/-- A transaction with one multicall invocation and 2500 bytes of call
data, i.e. a 5002-character hex string. -/
def txC8 : TxEvent :=
  { emptyTx with multicallCallCount := 1,
                 data := String.mk ('0' :: 'x' :: List.replicate 5000 'a') }

/-- C8 is false as stated: this transaction's raw call data is 2500 bytes,
not longer than 5000 bytes, yet the Phishing evaluator emits the Medium
suspicious-multicall finding, because the source compares the hex string's
character length (5002) against the 5000 threshold. -/
theorem C8_counterexample :
    txC8.multicallCallCount = 1 ∧ dataByteLength txC8.data ≤ 5000 ∧
    countAlert "PHISHING-4" (Phishing.handleTransaction emptyEnv txC8) = 1 := by
  have hlen : txC8.data.length = 5002 := by
    show ('0' :: 'x' :: List.replicate 5000 'a').length = 5002
    rw [List.length_cons, List.length_cons, List.length_replicate]
  have hto : txC8.txTo = none := rfl
  have hgas : txC8.gasPrice = none := rfl
  have happrove : txC8.approveCalls = [] := rfl
  have hsetapp : txC8.setApprovalForAllCalls = [] := rfl
  have hdeleg : txC8.delegateCalls = [] := rfl
  have hmc : txC8.multicallCallCount = 1 := rfl
  refine ⟨rfl, ?_, ?_⟩
  · show (txC8.data.length - 2) / 2 ≤ 5000
    rw [hlen]
    decide
  · simp [Phishing.handleTransaction, Phishing.checkKnownPhishingAddresses,
      Phishing.checkSuspiciousTokenOperations, Phishing.checkForFrontrunning,
      Phishing.checkSuspiciousDelegation, Phishing.checkInteractionWithRecentContracts,
      Phishing.LONG_DATA_THRESHOLD, hlen, hto, hgas, happrove, hsetapp, hdeleg,
      hmc, countAlert]

theorem mev1_not_in_sandwichFindings (cur : List (String × MEV.SwapRec)) :
    countAlert "MEV-1" (MEV.sandwichFindings cur) = 0 := by
  unfold MEV.sandwichFindings
  split
  · refine countAlert_flatMap_zero _ _ _ (fun i _ => ?_)
    split
    · split <;> simp [countAlert, MEV.sandwichFinding]
    · rfl
  · rfl

theorem mev1_not_in_sandwich (s : MEV.State) (env : Env) (tx : TxEvent) :
    countAlert "MEV-1" (MEV.checkForSandwichAttacks s env tx).2 = 0 := by
  unfold MEV.checkForSandwichAttacks
  split
  · rfl
  · split
    · rfl
    · dsimp only
      exact mev1_not_in_sandwichFindings _

theorem mev1_not_in_lowslip (env : Env) (tx : TxEvent) :
    countAlert "MEV-1" (MEV.checkForLowSlippageTolerance env tx) = 0 := by
  unfold MEV.checkForLowSlippageTolerance
  split
  · rfl
  · split
    · rfl
    · split <;> simp [countAlert]

theorem mev1_not_in_routes (env : Env) (tx : TxEvent) :
    countAlert "MEV-1" (MEV.checkForUnusualSwapRoutes env tx) = 0 := by
  unfold MEV.checkForUnusualSwapRoutes
  split
  · rfl
  · split
    · rfl
    · split <;> simp [countAlert]

/-- C7 (amended): with a positive gateway-reported average gas price, the
MEV evaluator emits its Medium high-gas finding exactly when the
transaction's gas price strictly exceeds 5 times the average; a gas price
of exactly 5 times the average yields no finding. -/
theorem mev_high_gas_iff (s : MEV.State) (env : Env) (tx : TxEvent)
    (gp avg : Nat) (hgp : tx.gasPrice = some gp) (hfee : env.feeData = some avg)
    (hpos : 0 < avg) :
    countAlert "MEV-1" (MEV.handleTransaction s env tx).2
      = if avg * 5 < gp then 1 else 0 := by
  unfold MEV.handleTransaction
  dsimp only
  rw [countAlert_append, countAlert_append, countAlert_append,
    mev1_not_in_sandwich, mev1_not_in_lowslip, mev1_not_in_routes]
  unfold MEV.checkForHighGasPrice
  rw [hgp, hfee]
  by_cases h5 : avg * 5 < gp
  · simp [hpos, h5, countAlert]
  · simp [hpos, h5, countAlert]

/-- A transaction whose gas price is exactly 5 times the gateway average
below. -/
def txC7 : TxEvent := { emptyTx with gasPrice := some 500 }

/-- A gateway reporting an average gas price of 100. -/
def envC7 : Env := { emptyEnv with feeData := some 100 }

/-- C7 is false as stated: a gas price of exactly 5 times the positive
average (500 vs 100) is at least 5 times the average, yet the evaluator
emits no Medium high-gas finding, because the source comparison is
strict. -/
theorem C7_counterexample :
    txC7.gasPrice = some (5 * 100) ∧ envC7.feeData = some 100 ∧
    countAlert "MEV-1" (MEV.handleTransaction [] envC7 txC7).2 = 0 := by
  refine ⟨rfl, rfl, ?_⟩
  decide

/-- A transaction whose gas price strictly exceeds 5 times the average. -/
def txC7W : TxEvent := { emptyTx with gasPrice := some 501 }

theorem mev_high_gas_iff_witness :
    (0:Nat) < 100 ∧ countAlert "MEV-1" (MEV.handleTransaction [] envC7 txC7W).2 = 1 := by
  have h := mev_high_gas_iff [] envC7 txC7W 501 100 rfl rfl (by decide)
  exact ⟨by decide, by rw [h]; decide⟩

theorem twofa_failed_events_not_missing (tx : TxEvent) :
    countAlert "2FA-MISSING-1" (TwoFA.processAuthFailed tx) = 0 := by
  refine countAlert_eq_zero _ (fun f hf => ?_)
  rcases List.mem_map.1 hf with ⟨ev, _, rfl⟩
  simp

/-- C6: a sender in the 2FA-enabled set with wildcard settings and value
threshold T, sending a transaction of value at least T carrying no
authentication-required or authentication-successful event, triggers
exactly one High missing-2FA finding when the last verification lies 2000
seconds in the past, and none when it lies 10 seconds in the past. -/
theorem twofa_missing_enforcement (s : TwoFA.State) (env : Env) (tx : TxEvent)
    (T lv : Nat)
    (husers : toLowerStr tx.txFrom ∈ s.usersWith2FA)
    (hset : mapGet s.user2FASettings (toLowerStr tx.txFrom) =
      some { enabledFor := ["all"], valueThreshold := T, lastVerification := lv })
    (hval : T ≤ tx.value)
    (hreq : tx.authRequiredLogs = []) (hsucc : tx.authSuccessLogs = []) :
    ((env.now : ℤ) - (lv : ℤ) = 2000 →
      countAlert "2FA-MISSING-1" (TwoFA.handleTransaction s env tx).2 = 1)
    ∧ ((env.now : ℤ) - (lv : ℤ) = 10 →
      countAlert "2FA-MISSING-1" (TwoFA.handleTransaction s env tx).2 = 0) := by
  have hstate : TwoFA.process2FAEvents s env tx = (s, TwoFA.processAuthFailed tx) := by
    simp [TwoFA.process2FAEvents, TwoFA.processAuthRequired,
      TwoFA.processAuthSuccess, hreq, hsucc]
  have hf3 : TwoFA.checkHighRiskOperations s tx = [] := by
    unfold TwoFA.checkHighRiskOperations
    split
    · rfl
    · dsimp only
      rw [if_pos husers]
  have hsplit : countAlert "2FA-MISSING-1" (TwoFA.handleTransaction s env tx).2
      = countAlert "2FA-MISSING-1" (TwoFA.checkTransactionFor2FA s env tx) := by
    unfold TwoFA.handleTransaction
    dsimp only
    rw [hstate]
    dsimp only
    rw [countAlert_append, countAlert_append, twofa_failed_events_not_missing,
      hf3]
    simp [countAlert]
  constructor
  · intro h2000
    rw [hsplit]
    have htime : (1800 : ℤ) < (env.now : ℤ) - (lv : ℤ) := by rw [h2000]; norm_num
    simp [TwoFA.checkTransactionFor2FA, husers, hset, hval, hreq, hsucc,
      htime, countAlert]
  · intro h10
    rw [hsplit]
    have htime : ¬((1800 : ℤ) < (env.now : ℤ) - (lv : ℤ)) := by rw [h10]; norm_num
    simp [TwoFA.checkTransactionFor2FA, husers, hset, hval, htime, countAlert]

/-- A 2FA state with one enabled user with wildcard settings. -/
def sC6 : TwoFA.State :=
  { pending2FATransactions := [], usersWith2FA := ["0xaaa"],
    user2FASettings := [("0xaaa",
      { enabledFor := ["all"], valueThreshold := 5, lastVerification := 0 })] }

/-- A gateway clock reading 2000 seconds. -/
def envC6 : Env := { emptyEnv with now := 2000 }

/-- A value-7 transaction from the enabled user, with no auth events. -/
def txC6 : TxEvent := { emptyTx with txFrom := "0xaaa", value := 7 }

theorem twofa_missing_enforcement_witness :
    countAlert "2FA-MISSING-1" (TwoFA.handleTransaction sC6 envC6 txC6).2 = 1 := by
  have h := twofa_missing_enforcement sC6 envC6 txC6 5 0 (by decide) (by decide)
    (by decide) rfl rfl
  exact h.1 (by decide)

theorem security1_not_in_ownership (s : Multisig.State) (m : String) (tx : TxEvent) :
    countAlert "MULTISIG-SECURITY-1" (Multisig.detectOwnershipChanges s m tx) = 0 := by
  unfold Multisig.detectOwnershipChanges
  rw [countAlert_append]
  have h1 : countAlert "MULTISIG-SECURITY-1"
      (if 0 < tx.ownerAdditionLogCount ∧ 0 < tx.ownerRemovalLogCount then
        [{ name := "Suspicious Multisig Ownership Changes",
           alertId := "MULTISIG-OWNERSHIP-1", severity := .high,
           ftype := .suspicious,
           metadata := [("multisigAddress", m),
                        ("additionsCount", toString tx.ownerAdditionLogCount),
                        ("removalsCount", toString tx.ownerRemovalLogCount),
                        ("transactionHash", tx.hash)] }]
      else []) = 0 := by
    split <;> simp [countAlert]
  have h2 : countAlert "MULTISIG-SECURITY-1"
      (tx.requirementChangeLogs.flatMap (fun log =>
        match mapGet s m with
        | some cachedData =>
          if log.requirement < cachedData.threshold then
            [{ name := "Multisig Security Reduction",
               alertId := "MULTISIG-THRESHOLD-1", severity := .high,
               ftype := .suspicious,
               metadata := [("multisigAddress", m),
                            ("oldThreshold", toString cachedData.threshold),
                            ("newThreshold", toString log.requirement),
                            ("transactionHash", tx.hash)] }]
          else []
        | none => [])) = 0 := by
    refine countAlert_flatMap_zero _ _ _ (fun lg _ => ?_)
    split
    · split <;> simp [countAlert]
    · rfl
  rw [h1, h2]

/-- C5: for a recognized multisig wallet whose cached owner set is
populated (and whose on-chain config read fails on this call, so the cache
survives), a direct execTransaction call to the wallet from a sender whose
lowercased address is outside the cached owner set yields exactly one High
unauthorized-access finding; from a cached owner it yields none from that
check; and with no cache entry the check is suppressed entirely. -/
theorem multisig_unauthorized_exec (s : Multisig.State) (env : Env) (m : String)
    (cfg : Multisig.MultisigConfig) (tx : TxEvent) (b : Nat)
    (hms : Multisig.isMultisigWallet env m = true)
    (hcfg : env.readConfig m = none)
    (hbn : env.getBlockNumber = some b)
    (haddrs : tx.addresses = [m])
    (hto : tx.txTo = some m)
    (hdata : strContains tx.data Multisig.EXECUTE = true) :
    (mapGet s m = some cfg → toLowerStr tx.txFrom ∉ cfg.owners →
      countAlert "MULTISIG-SECURITY-1" (Multisig.handleTransaction s env tx).2 = 1)
    ∧ (mapGet s m = some cfg → toLowerStr tx.txFrom ∈ cfg.owners →
      countAlert "MULTISIG-SECURITY-1" (Multisig.handleTransaction s env tx).2 = 0)
    ∧ (mapGet s m = none →
      countAlert "MULTISIG-SECURITY-1" (Multisig.handleTransaction s env tx).2 = 0) := by
  have hrun : (Multisig.handleTransaction s env tx).2
      = Multisig.detectAnomalousActivity s env m tx
        ++ (if 0 < tx.ownerAdditionLogCount ∨ 0 < tx.ownerRemovalLogCount
              ∨ 0 < tx.requirementChangeLogs.length then
              Multisig.detectOwnershipChanges s m tx
            else []) := by
    simp [Multisig.handleTransaction, haddrs, hms,
      Multisig.analyzeMutisigConfiguration, hcfg]
  have hown : countAlert "MULTISIG-SECURITY-1"
      (if 0 < tx.ownerAdditionLogCount ∨ 0 < tx.ownerRemovalLogCount
          ∨ 0 < tx.requirementChangeLogs.length then
        Multisig.detectOwnershipChanges s m tx
      else []) = 0 := by
    split
    · exact security1_not_in_ownership s m tx
    · rfl
  have hact : countAlert "MULTISIG-SECURITY-1" (Multisig.handleTransaction s env tx).2
      = countAlert "MULTISIG-SECURITY-1"
          (match mapGet s m with
           | some cachedData =>
             if toLowerStr tx.txFrom ∈ cachedData.owners then []
             else
               [{ name := "Unauthorized Multisig Access Attempt",
                  alertId := "MULTISIG-SECURITY-1", severity := .high,
                  ftype := .suspicious,
                  metadata := [("multisigAddress", m), ("sender", tx.txFrom),
                               ("transactionHash", tx.hash)] }]
           | none => []) := by
    rw [hrun, countAlert_append, hown]
    unfold Multisig.detectAnomalousActivity
    rw [hbn]
    dsimp only
    rw [countAlert_append]
    have hrev : countAlert "MULTISIG-SECURITY-1"
        (if 2 < tx.revocationLogCount then
          [{ name := "Unusual Multisig Activity",
             alertId := "MULTISIG-ACTIVITY-1", severity := .medium,
             ftype := .suspicious,
             metadata := [("multisigAddress", m),
                          ("revocationCount", toString tx.revocationLogCount),
                          ("transactionHash", tx.hash)] }]
        else []) = 0 := by
      split <;> simp [countAlert]
    rw [hrev, if_pos ⟨hto, hdata⟩]
    omega
  refine ⟨fun hget hout => ?_, fun hget hin => ?_, fun hget => ?_⟩
  · rw [hact, hget]
    simp [hout, countAlert]
  · rw [hact, hget]
    simp [hin, countAlert]
  · rw [hact, hget]
    rfl

/-- A multisig wallet address, its bytecode carrying the execTransaction
selector, with a failing config read and one cached owner set. -/
def envC5 : Env :=
  { emptyEnv with
      getCode := fun a => if a = "0xmsafe" then some "0xdead6a761202beef" else none,
      getBlockNumber := some 1 }

/-- A cache holding owners for the wallet above. -/
def sC5 : Multisig.State :=
  [("0xmsafe", { owners := ["0xaa", "0xbb", "0xcc"], threshold := 2 })]

/-- A direct execTransaction call to the wallet from a non-owner. -/
def txC5 : TxEvent :=
  { emptyTx with txFrom := "0xdd", txTo := some "0xmsafe",
                 data := "0x6a761202cafe", addresses := ["0xmsafe"],
                 hash := "0xt5" }

theorem multisig_unauthorized_exec_witness :
    countAlert "MULTISIG-SECURITY-1" (Multisig.handleTransaction sC5 envC5 txC5).2 = 1 := by
  have h := multisig_unauthorized_exec sC5 envC5 "0xmsafe"
    { owners := ["0xaa", "0xbb", "0xcc"], threshold := 2 } txC5 1
    (by decide) rfl rfl rfl rfl (by decide)
  exact h.1 (by decide) (by decide)

theorem flatMap_nil_of_all {α β : Type} (l : List α) (g : α → List β)
    (h : ∀ x ∈ l, g x = []) : l.flatMap g = [] := by
  induction l with
  | nil => rfl
  | cons x xs ih =>
    rw [List.flatMap_cons, h x (by simp), ih (fun y hy => h y (by simp [hy]))]
    rfl

theorem safe_contracts_not_malicious :
    ∀ a ∈ Approval.KNOWN_SAFE_CONTRACTS, a ∉ Approval.KNOWN_MALICIOUS_CONTRACTS := by
  decide

/-- C1 (amended): the Approval evaluator returns no findings for a
transaction with no unlimited approvals, all approval values below 10^24,
every granted ApprovalForAll operator known-safe and reported by the
gateway as an established contract, fewer than 4 approve/setApprovalForAll
invocations, no approve call combined with a transfer or transferFrom
call, and no approve call combined with more than 3 traced contract
calls. -/
theorem approval_quiet_tx_no_findings (env : Env) (tx : TxEvent)
    (h1 : ∀ lg ∈ tx.approvalLogs, lg.value ≠ Approval.UNLIMITED_ALLOWANCE)
    (h2 : ∀ lg ∈ tx.approvalLogs, lg.value < 10 ^ 24)
    (h3 : ∀ lg ∈ tx.approvalForAllLogs, lg.approved = true →
        Approval.isContract env lg.operator = true
        ∧ Approval.isNewContract env lg.operator = false
        ∧ Approval.isKnownSafeContract lg.operator = true)
    (h4 : tx.approveCalls.length + tx.setApprovalForAllCalls.length < 4)
    (h5 : ¬(0 < tx.approveCalls.length
        ∧ (0 < tx.transferCallCount ∨ 0 < tx.transferFromCallCount)))
    (h6 : ¬(0 < tx.approveCalls.length ∧ 3 < (Approval.contractCalls tx).length)) :
    Approval.handleTransaction env tx = [] := by
  unfold Approval.handleTransaction
  have e1 : Approval.detectERC20Approvals env tx = [] := by
    unfold Approval.detectERC20Approvals
    refine flatMap_nil_of_all _ _ (fun lg hlg => ?_)
    unfold Approval.erc20ApprovalFindings
    dsimp only
    rw [if_neg (h1 lg hlg),
      if_neg ((Nat.lt_asymm (h2 lg hlg)) :
        ¬(Approval.HIGH_VALUE_THRESHOLD < lg.value))]
  have e2 : Approval.detectNFTApprovals env tx = [] := by
    unfold Approval.detectNFTApprovals
    refine flatMap_nil_of_all _ _ (fun lg hlg => ?_)
    have hlg' : lg ∈ tx.approvalForAllLogs := (List.mem_append.1 hlg).elim id id
    unfold Approval.nftApprovalFindings
    dsimp only
    cases happ : lg.approved with
    | false => rw [if_neg (by simp)]
    | true =>
      obtain ⟨hc, hn, hs⟩ := h3 lg hlg' happ
      have hmemsafe : toLowerStr lg.operator ∈ Approval.KNOWN_SAFE_CONTRACTS :=
        of_decide_eq_true hs
      rw [if_pos rfl,
        if_neg (safe_contracts_not_malicious _ hmemsafe),
        if_neg (by simp [hc]), if_neg (by simp [hn]), if_neg (by simp [hs])]
  have e3 : Approval.detectMultipleApprovals tx = [] := by
    unfold Approval.detectMultipleApprovals
    dsimp only
    rw [if_neg (Nat.not_le.2 h4)]
  have e4 : Approval.detectSuspiciousApprovalPatterns tx = [] := by
    unfold Approval.detectSuspiciousApprovalPatterns
    rw [if_neg h5, if_neg h6]
    rfl
  rw [e1, e2, e3, e4]
  rfl

/-- A gateway reporting every address as an established contract. -/
def envC1W : Env :=
  { emptyEnv with getCode := fun _ => some "0x6080",
                  getTransactionCount := fun _ => some 10 }

/-- A transaction with one small ERC20 approval, one ApprovalForAll grant
to the known-safe Uniswap V2 router, and a single approve call. -/
def txC1W : TxEvent :=
  { emptyTx with
      approvalLogs :=
        [ { address := "0xtok"
            owner := "0xown"
            spender := "0x7a250d5630b4cf539739df2c5dacb4c659f2488d"
            value := 1000 } ],
      approvalForAllLogs :=
        [ { address := "0xnft"
            owner := "0xown"
            operator := "0x7a250d5630b4cf539739df2c5dacb4c659f2488d"
            approved := true } ],
      approveCalls :=
        [ { address := "0xtok"
            spender := "0x7a250d5630b4cf539739df2c5dacb4c659f2488d"
            value := 1000 } ] }

theorem approval_quiet_tx_no_findings_witness :
    Approval.handleTransaction envC1W txC1W = [] :=
  approval_quiet_tx_no_findings envC1W txC1W (by decide) (by decide) (by decide)
    (by decide) (by decide) (by decide)

/-- A small approve call granting 100 tokens to the known-safe Uniswap V2
router. -/
def approveCallC1 : ApproveCall :=
  { address := "0xtok"
    spender := "0x7a250d5630b4cf539739df2c5dacb4c659f2488d"
    value := 100 }

/-- Four small approve calls to the known-safe Uniswap V2 router. -/
def txC1 : TxEvent :=
  { emptyTx with approveCalls := List.replicate 4 approveCallC1 }

/-- C1 is false as stated: this transaction has no unlimited approval, all
approval values far below 10^24, and every grantee is the known-safe
Uniswap V2 router, yet the Approval evaluator returns a non-empty finding
list (the multiple-approvals check fires on the 4 approve calls). -/
theorem C1_counterexample :
    (∀ lg ∈ txC1.approvalLogs,
        lg.value ≠ Approval.UNLIMITED_ALLOWANCE ∧ lg.value < 10 ^ 24)
    ∧ (∀ c ∈ txC1.approveCalls,
        c.value ≠ Approval.UNLIMITED_ALLOWANCE ∧ c.value < 10 ^ 24
        ∧ Approval.isKnownSafeContract c.spender = true)
    ∧ txC1.approvalForAllLogs = []
    ∧ Approval.handleTransaction emptyEnv txC1 ≠ [] := by decide

theorem parseSwapData_inv (env : Env) (tx : TxEvent) (sd : MEV.SwapData)
    (h : MEV.parseSwapData env tx = some sd) :
    sd.amountIn ≠ 0 ∧ sd.path ≠ [] ∧
    sd.slippage = (if 0 < sd.amountOutMin then
      1 - (sd.amountOutMin : ℚ) / (sd.amountIn : ℚ) else 0) := by
  unfold MEV.parseSwapData at h
  rcases hto : tx.txTo with _ | t
  · rw [hto] at h
    exact absurd h (by simp)
  · rw [hto] at h
    dsimp only at h
    by_cases hd : tx.data = ""
    · rw [if_pos hd] at h
      exact absurd h (by simp)
    · rw [if_neg hd] at h
      by_cases hz : (MEV.rawSwapArgs env tx t).1 = 0
        ∨ (MEV.rawSwapArgs env tx t).2.2 = []
      · rw [if_pos hz] at h
        exact absurd h (by simp)
      · rw [if_neg hz] at h
        push_neg at hz
        have h' := Option.some.inj h
        subst h'
        exact ⟨hz.1, hz.2, rfl⟩

/-- C3 (amended): for every successfully decoded swap, the computed
slippage is at most 1, and lies in [0, 1] whenever amountOutMin does not
exceed amountIn; with amountOutMin greater than amountIn the slippage
value is negative, so the interval claim holds only under that extra
hypothesis. -/
theorem mev_slippage_range (env : Env) (tx : TxEvent) (sd : MEV.SwapData)
    (h : MEV.parseSwapData env tx = some sd) :
    sd.slippage ≤ 1 ∧ (sd.amountOutMin ≤ sd.amountIn → 0 ≤ sd.slippage) := by
  obtain ⟨hz, -, hs⟩ := parseSwapData_inv env tx sd h
  rw [hs]
  by_cases hm : 0 < sd.amountOutMin
  · rw [if_pos hm]
    have hq0 : (0:ℚ) ≤ (sd.amountOutMin : ℚ) / (sd.amountIn : ℚ) :=
      div_nonneg (Nat.cast_nonneg _) (Nat.cast_nonneg _)
    constructor
    · linarith
    · intro hle
      have hpos : (0:ℚ) < (sd.amountIn : ℚ) := by
        exact_mod_cast Nat.pos_of_ne_zero hz
      have hdle : (sd.amountOutMin : ℚ) / (sd.amountIn : ℚ) ≤ 1 := by
        rw [div_le_one hpos]
        exact_mod_cast hle
      linarith
  · rw [if_neg hm]
    exact ⟨by norm_num, fun _ => le_refl 0⟩

/-- A gateway decoding every swapExactTokensForETH call as amountIn 1,
amountOutMin 2 over a two-token path. -/
def envC3 : Env :=
  { emptyEnv with decodeTokensSwap := fun _ => some (1, 2, ["0xt0", "0xt1"]) }

/-- A swap call to the Uniswap V2 router with the tokens-for-ETH
selector. -/
def txC3 : TxEvent :=
  { emptyTx with txTo := some MEV.UNISWAP_V2, data := "0x18cbafe5ff" }

/-- The decoded swap of txC3 under envC3. -/
def swapC3 : MEV.SwapData :=
  { path := ["0xt0", "0xt1"], amountIn := 1, amountOutMin := 2,
    slippage := if 0 < (2:Nat) then 1 - ((2:Nat) : ℚ) / ((1:Nat) : ℚ) else 0 }

/-- C3 is false as stated: this successfully decoded swap has
amountIn = 1 > 0, yet its computed slippage is -1, outside [0, 1],
because amountOutMin (2) exceeds amountIn (1). -/
theorem C3_counterexample :
    MEV.parseSwapData envC3 txC3 = some swapC3 ∧ ¬(0 ≤ swapC3.slippage) := by
  constructor
  · rfl
  · have hval : swapC3.slippage = -1 := by
      show (if 0 < (2:Nat) then 1 - ((2:Nat) : ℚ) / ((1:Nat) : ℚ) else 0) = -1
      rw [if_pos (by norm_num)]
      norm_num
    rw [hval]
    norm_num

/-- A gateway decoding every swapExactTokensForETH call as amountIn 100,
amountOutMin 40. -/
def envC3W : Env :=
  { emptyEnv with decodeTokensSwap := fun _ => some (100, 40, ["0xt0", "0xt1"]) }

/-- A second swap call to the Uniswap V2 router. -/
def txC3W : TxEvent :=
  { emptyTx with txTo := some MEV.UNISWAP_V2, data := "0x18cbafe5aa" }

/-- The decoded swap of txC3W under envC3W. -/
def swapC3W : MEV.SwapData :=
  { path := ["0xt0", "0xt1"], amountIn := 100, amountOutMin := 40,
    slippage := if 0 < (40:Nat) then 1 - ((40:Nat) : ℚ) / ((100:Nat) : ℚ) else 0 }

theorem mev_slippage_range_witness :
    swapC3W.amountOutMin ≤ swapC3W.amountIn
    ∧ swapC3W.slippage ≤ 1 ∧ 0 ≤ swapC3W.slippage := by
  have h := mev_slippage_range envC3W txC3W swapC3W rfl
  exact ⟨by decide, h.1, h.2 (by decide)⟩

/-- C4: processing a decodable swap at block B leaves no pending-swap
entry with blockNumber below B - 100 (eviction runs after every insert),
and on every call the sandwich-correlation candidates carry exactly the
current block number, so an entry more than 100 blocks old never
participates in correlation on that or any later call. -/
theorem mev_eviction (s : MEV.State) (env : Env) (tx : TxEvent) (sd : MEV.SwapData)
    (hswap : MEV.isSwapTransaction tx = true)
    (hparse : MEV.parseSwapData env tx = some sd) :
    (∀ p ∈ (MEV.handleTransaction s env tx).1,
        ¬((p.2.blockNumber : ℤ) < (tx.blockNumber : ℤ) - 100))
    ∧ (∀ (s' : MEV.State) (bn : Nat), ∀ q ∈ MEV.currentBlockSwaps s' bn,
        q.2.blockNumber = bn ∧ ¬((q.2.blockNumber : ℤ) < (bn : ℤ) - 100)) := by
  constructor
  · intro p hp
    have hstate : (MEV.handleTransaction s env tx).1
        = MEV.cleanupOldSwaps
            (mapSet s tx.hash
              { blockNumber := tx.blockNumber, timestamp := env.now,
                sender := tx.txFrom, tokenPath := sd.path,
                amountIn := sd.amountIn, amountOutMin := sd.amountOutMin,
                slippage := sd.slippage })
            ((tx.blockNumber : ℤ) - 100) := by
      simp [MEV.handleTransaction, MEV.checkForSandwichAttacks, hswap, hparse]
    rw [hstate] at hp
    unfold MEV.cleanupOldSwaps at hp
    have := (List.mem_filter.1 hp).2
    simpa using this
  · intro s' bn q hq
    have heq : q.2.blockNumber = bn := by
      have := (List.mem_filter.1 hq).2
      simpa [MEV.currentBlockSwaps] using this
    refine ⟨heq, ?_⟩
    rw [heq]
    omega

/-- A gateway decoding tokens-for-ETH swaps as amountIn 100,
amountOutMin 40 (for the eviction claim). -/
def envC4 : Env :=
  { emptyEnv with decodeTokensSwap := fun _ => some (100, 40, ["0xt0", "0xt1"]) }

/-- A decodable swap at block 500. -/
def txC4 : TxEvent :=
  { emptyTx with txTo := some MEV.UNISWAP_V2, data := "0x18cbafe5aa",
                 hash := "0xh4", blockNumber := 500 }

/-- The decoded swap of txC4 under envC4. -/
def swapC4 : MEV.SwapData :=
  { path := ["0xt0", "0xt1"], amountIn := 100, amountOutMin := 40,
    slippage := if 0 < (40:Nat) then 1 - ((40:Nat) : ℚ) / ((100:Nat) : ℚ) else 0 }

/-- The pending-swap record stored for txC4. -/
def recC4 : MEV.SwapRec :=
  { blockNumber := 500, timestamp := 0, sender := "",
    tokenPath := ["0xt0", "0xt1"], amountIn := 100, amountOutMin := 40,
    slippage := if 0 < (40:Nat) then 1 - ((40:Nat) : ℚ) / ((100:Nat) : ℚ) else 0 }

theorem mev_eviction_witness :
    ¬((recC4.blockNumber : ℤ) < (txC4.blockNumber : ℤ) - 100) := by
  have hst : (MEV.handleTransaction [] envC4 txC4).1 = [("0xh4", recC4)] := rfl
  exact (mev_eviction [] envC4 txC4 swapC4 (by decide) rfl).1 ("0xh4", recC4)
    (by rw [hst]; exact List.mem_singleton_self _)

theorem mem_mapSet {α : Type} (m : List (String × α)) (k : String) (v : α) :
    ∀ p ∈ mapSet m k v, p ∈ m ∨ p = (k, v) := by
  induction m with
  | nil =>
    intro p hp
    simp only [mapSet, List.mem_singleton] at hp
    exact Or.inr hp
  | cons q rest ih =>
    intro p hp
    simp only [mapSet] at hp
    by_cases hqk : q.1 = k
    · rw [if_pos hqk] at hp
      rcases List.mem_cons.1 hp with hp | hp
      · exact Or.inr hp
      · exact Or.inl (List.mem_cons_of_mem _ hp)
    · rw [if_neg hqk] at hp
      rcases List.mem_cons.1 hp with hp | hp
      · exact Or.inl (hp ▸ List.mem_cons_self _ _)
      · rcases ih p hp with hp | hp
        · exact Or.inl (List.mem_cons_of_mem _ hp)
        · exact Or.inr hp

/-- C10: the MEV evaluator only ever inserts pending-swap entries with a
positive amountIn and a non-empty token path (the decode guard rejects
anything else), so the well-formedness of every stored entry is preserved
by every handleTransaction call. -/
theorem mev_pending_swaps_wellformed (s : MEV.State) (env : Env) (tx : TxEvent)
    (h : ∀ p ∈ s, 0 < p.2.amountIn ∧ p.2.tokenPath ≠ []) :
    ∀ p ∈ (MEV.handleTransaction s env tx).1,
      0 < p.2.amountIn ∧ p.2.tokenPath ≠ [] := by
  intro p hp
  have hp1 : p ∈ (MEV.checkForSandwichAttacks s env tx).1 := by
    simpa [MEV.handleTransaction] using hp
  unfold MEV.checkForSandwichAttacks at hp1
  by_cases hb : MEV.isSwapTransaction tx = false
  · rw [if_pos hb] at hp1
    exact h p hp1
  · rw [if_neg hb] at hp1
    rcases hparse : MEV.parseSwapData env tx with _ | sd
    · rw [hparse] at hp1
      exact h p hp1
    · rw [hparse] at hp1
      dsimp only at hp1
      unfold MEV.cleanupOldSwaps at hp1
      have hmem := mem_mapSet s tx.hash _ p (List.mem_filter.1 hp1).1
      rcases hmem with hmem | rfl
      · exact h p hmem
      · obtain ⟨hz, hpath, -⟩ := parseSwapData_inv env tx sd hparse
        exact ⟨Nat.pos_of_ne_zero hz, hpath⟩

/-- A gateway decoding tokens-for-ETH swaps as amountIn 100,
amountOutMin 40 (for the well-formedness claim). -/
def envC10 : Env :=
  { emptyEnv with decodeTokensSwap := fun _ => some (100, 40, ["0xt0", "0xt1"]) }

/-- A decodable swap at block 500. -/
def txC10 : TxEvent :=
  { emptyTx with txTo := some MEV.UNISWAP_V2, data := "0x18cbafe5aa",
                 hash := "0xha", blockNumber := 500 }

/-- The pending-swap record stored for txC10. -/
def recC10 : MEV.SwapRec :=
  { blockNumber := 500, timestamp := 0, sender := "",
    tokenPath := ["0xt0", "0xt1"], amountIn := 100, amountOutMin := 40,
    slippage := if 0 < (40:Nat) then 1 - ((40:Nat) : ℚ) / ((100:Nat) : ℚ) else 0 }

theorem mev_pending_swaps_wellformed_witness :
    0 < recC10.amountIn ∧ recC10.tokenPath ≠ [] := by
  have hst : (MEV.handleTransaction [] envC10 txC10).1 = [("0xha", recC10)] := rfl
  exact mev_pending_swaps_wellformed [] envC10 txC10 (by simp) ("0xha", recC10)
    (by rw [hst]; exact List.mem_singleton_self _)

theorem mev2_filter_lowslip (env : Env) (tx : TxEvent) :
    (MEV.checkForLowSlippageTolerance env tx).filter
      (fun f => decide (f.alertId = "MEV-2")) = [] := by
  unfold MEV.checkForLowSlippageTolerance
  split
  · rfl
  · split
    · rfl
    · split <;> simp

theorem mev2_filter_routes (env : Env) (tx : TxEvent) :
    (MEV.checkForUnusualSwapRoutes env tx).filter
      (fun f => decide (f.alertId = "MEV-2")) = [] := by
  unfold MEV.checkForUnusualSwapRoutes
  split
  · rfl
  · split
    · rfl
    · split <;> simp

/-- A gateway decoding every ETH-for-tokens swap as WETH to USDC with
amountOutMin 0, and every tokens-for-ETH swap as USDC back to WETH. -/
def envC2 : Env :=
  { emptyEnv with
      decodeETHForTokens := fun _ => some (0, ["0xweth", "0xusdc"]),
      decodeTokensSwap := fun _ => some (100, 0, ["0xusdc", "0xweth"]) }

/-- Sender A swaps ETH to USDC at block 500. -/
def txA1 : TxEvent :=
  { emptyTx with txFrom := "0xaaaa", txTo := some MEV.UNISWAP_V2, value := 100,
                 data := "0x7ff36ab5a1", hash := "0xh1", blockNumber := 500 }

/-- Sender B swaps ETH to USDC at block 500. -/
def txB : TxEvent :=
  { emptyTx with txFrom := "0xbbbb", txTo := some MEV.UNISWAP_V2, value := 200,
                 data := "0x7ff36ab5b1", hash := "0xh2", blockNumber := 500 }

/-- Sender A swaps ETH to USDC again at block 500 (same-direction path). -/
def txA2 : TxEvent :=
  { emptyTx with txFrom := "0xaaaa", txTo := some MEV.UNISWAP_V2, value := 300,
                 data := "0x7ff36ab5a2", hash := "0xh3", blockNumber := 500 }

/-- Sender A swaps USDC back to ETH at block 500 (the reversed back-run of
the claim's triple). -/
def txA2cx : TxEvent :=
  { emptyTx with txFrom := "0xaaaa", txTo := some MEV.UNISWAP_V2,
                 data := "0x18cbafe5a2", hash := "0xh3", blockNumber := 500 }

/-- The pending-swap record of txA1. -/
def recA1 : MEV.SwapRec :=
  { blockNumber := 500, timestamp := 0, sender := "0xaaaa",
    tokenPath := ["0xweth", "0xusdc"], amountIn := 100, amountOutMin := 0,
    slippage := 0 }

/-- The pending-swap record of txB. -/
def recB : MEV.SwapRec :=
  { blockNumber := 500, timestamp := 0, sender := "0xbbbb",
    tokenPath := ["0xweth", "0xusdc"], amountIn := 200, amountOutMin := 0,
    slippage := 0 }

/-- The pending-swap window after txA1. -/
def sC2one : MEV.State := [("0xh1", recA1)]

/-- The pending-swap window after txA1 and txB. -/
def sC2two : MEV.State := [("0xh1", recA1), ("0xh2", recB)]

/-- C2 is false as stated: processing A's ETH-to-USDC swap, B's ETH-to-USDC
swap, and A's USDC-to-ETH swap (the reversed back-run) in block 500 from
the empty state, the third call returns no sandwich finding at all,
because the path-similarity test demands equal first tokens, which a
reversed path never satisfies. -/
theorem C2_counterexample :
    (MEV.handleTransaction
        (MEV.handleTransaction (MEV.handleTransaction [] envC2 txA1).1 envC2 txB).1
        envC2 txA2cx).2.filter (fun f => decide (f.alertId = "MEV-2")) = [] := by
  have h1 : (MEV.handleTransaction [] envC2 txA1).1 = sC2one := rfl
  have h2 : (MEV.handleTransaction sC2one envC2 txB).1 = sC2two := rfl
  rw [h1, h2]
  have hsplit : (MEV.handleTransaction sC2two envC2 txA2cx).2
      = MEV.checkForHighGasPrice envC2 txA2cx
        ++ (MEV.checkForSandwichAttacks sC2two envC2 txA2cx).2
        ++ MEV.checkForLowSlippageTolerance envC2 txA2cx
        ++ MEV.checkForUnusualSwapRoutes envC2 txA2cx := rfl
  rw [hsplit, List.filter_append, List.filter_append, List.filter_append,
    mev2_filter_lowslip, mev2_filter_routes]
  have ha : (MEV.checkForHighGasPrice envC2 txA2cx).filter
      (fun f => decide (f.alertId = "MEV-2")) = [] := rfl
  have hb : ((MEV.checkForSandwichAttacks sC2two envC2 txA2cx).2).filter
      (fun f => decide (f.alertId = "MEV-2")) = [] := rfl
  rw [ha, hb]
  rfl

/-- C2 (amended): with the back-run leg replaced by a same-direction
ETH-to-USDC swap by A (the source's path-similarity test requires equal
first and last tokens), the third call returns exactly one High sandwich
finding naming B's transaction as victim and A's two transactions as the
front-run and back-run legs. -/
theorem mev_sandwich_same_direction_triple :
    (MEV.handleTransaction
        (MEV.handleTransaction (MEV.handleTransaction [] envC2 txA1).1 envC2 txB).1
        envC2 txA2).2.filter (fun f => decide (f.alertId = "MEV-2"))
      = [{ name := "Potential Sandwich Attack", alertId := "MEV-2",
           severity := .high, ftype := .suspicious,
           metadata := [("victimTx", "0xh2"), ("frontrunTx", "0xh1"),
                        ("backrunTx", "0xh3"), ("attacker", "0xaaaa"),
                        ("victim", "0xbbbb")] }] := by
  have h1 : (MEV.handleTransaction [] envC2 txA1).1 = sC2one := rfl
  have h2 : (MEV.handleTransaction sC2one envC2 txB).1 = sC2two := rfl
  rw [h1, h2]
  have hsplit : (MEV.handleTransaction sC2two envC2 txA2).2
      = MEV.checkForHighGasPrice envC2 txA2
        ++ (MEV.checkForSandwichAttacks sC2two envC2 txA2).2
        ++ MEV.checkForLowSlippageTolerance envC2 txA2
        ++ MEV.checkForUnusualSwapRoutes envC2 txA2 := rfl
  rw [hsplit, List.filter_append, List.filter_append, List.filter_append,
    mev2_filter_lowslip, mev2_filter_routes]
  have ha : (MEV.checkForHighGasPrice envC2 txA2).filter
      (fun f => decide (f.alertId = "MEV-2")) = [] := rfl
  have hb : ((MEV.checkForSandwichAttacks sC2two envC2 txA2).2).filter
      (fun f => decide (f.alertId = "MEV-2"))
      = [{ name := "Potential Sandwich Attack", alertId := "MEV-2",
           severity := .high, ftype := .suspicious,
           metadata := [("victimTx", "0xh2"), ("frontrunTx", "0xh1"),
                        ("backrunTx", "0xh3"), ("attacker", "0xaaaa"),
                        ("victim", "0xbbbb")] }] := rfl
  rw [ha, hb]
  rfl
